import Mathlib

/-!
Shallow embedding of `src/main.py` of the topo-fastapi-server repository.

The program is a FastAPI application with a single endpoint
`POST /GeoProfile` (`process_linestring`).  The handler builds a WKT
`LINESTRING(...)` string from the posted `coords` list and issues five
database query functions, each of which opens one psycopg2 connection,
runs one parameterized PostGIS SQL statement and closes the connection at
function exit:
  `calculate_linestring_length`, `fetch_elevation_data`,
  `fetch_hydrographic_info`, `fetch_clc_data`, `calculate_clc_percentage`.

Modelling choices:
  * Python floats (`ST_LENGTH` results, fractional positions) are modelled
    as exact rationals `ℚ`.
  * The database is abstract: a `DB` record maps the WKT text to the raw
    geometric facts each table holds about it (raster samples, river
    features with their crossing positions, land-cover features with their
    intersection pieces).  The SQL statements themselves — the filtering,
    the arithmetic, the grouping and the ORDER BY clauses that appear
    literally in `main.py` — are embedded as Lean list programs over those
    facts.
  * Connection handling is made observable through an `Event` trace
    (`openConn`/`closeConn`), one pair per `with psycopg2.connect(...)`
    block.
  * Failures of the Python code (IndexError while building the WKT,
    ZeroDivisionError in `total_length / len(elevation_points)`) are
    modelled with `Except`.
-/

namespace TopoServer

/-- Python `int(q)` applied to a (modelled) float: truncation toward zero. -/
def pyInt (q : ℚ) : ℤ := if 0 ≤ q then ⌊q⌋ else ⌈q⌉

/-- PostgreSQL `::INT` cast of a double precision value: rounds to the
nearest integer.  (PostgreSQL rounds ties to even; Mathlib `round` rounds
ties up.  No claim in this development depends on tie behaviour.) -/
def pgInt (q : ℚ) : ℤ := round q

/-- The result of `json.loads` on an `ST_ASGEOJSON` point: only its
`coordinates` member is ever read by the handler. -/
structure GeoJsonPoint where
  coordinates : List ℚ
deriving DecidableEq

/-- One row of the elevation query of `fetch_elevation_data`:
`CAST(ST_VALUE(...) AS INT)` (NULL when the raster holds no value) and the
GeoJSON of the dumped interpolated point. -/
structure ElevRow where
  value : Option ℤ
  geom : GeoJsonPoint
deriving DecidableEq

/-- One feature of the `GEO_COURS_EAU` table as it relates to the posted
line: its name, its class, whether `ST_CROSSES` holds, and the fractional
positions (`ST_LINELOCATEPOINT`) of the dumped intersection points. -/
structure HydroFeature where
  nomentiteh : String
  classe : ℤ
  crosses : Bool
  crossPositions : List ℚ
deriving DecidableEq

/-- One output row of `fetch_hydrographic_info`:
`NOMENTITEH, CLASSE, DIST_M`. -/
structure HydroRow where
  nomentiteh : String
  classe : ℤ
  dist_m : ℤ
deriving DecidableEq

/-- One piece of `ST_DUMP(ST_INTERSECTION(L.GEOM, C.GEOM))` for a
land-cover feature: whether its geometry type is `ST_LineString`-like, its
`ST_LENGTH`, and the `ST_LINELOCATEPOINT` of its centroid along the line. -/
structure ClcSeg where
  isLineString : Bool
  len : ℚ
  position : ℚ
deriving DecidableEq

/-- One feature of the `GEO_CLC_2018` table as it relates to the posted
line: code, description, whether `ST_INTERSECTS` holds, the `ST_LENGTH` of
`ST_INTERSECTION(L.GEOM, C.GEOM)`, and the dumped intersection pieces. -/
structure ClcFeature where
  code_clc : ℤ
  description_clc : String
  intersects : Bool
  intersectionLength : ℚ
  segs : List ClcSeg
deriving DecidableEq

/-- One row of the inner `SEG` subquery of `fetch_clc_data`. -/
structure SegRow where
  code_clc : ℤ
  description_clc : String
  geomIsLineString : Bool
  geomLength : ℚ
  position : ℚ
deriving DecidableEq

/-- One output row of `fetch_clc_data`:
`CODE_CLC, DESCRIPTION_CLC, LONGUEUR_CUMULEE`. -/
structure ClcRow where
  code_clc : ℤ
  description_clc : String
  longueur_cumulee : ℤ
deriving DecidableEq

/-- One output row of `calculate_clc_percentage`:
`CODE_CLC, DESCRIPTION_CLC, LONGUEUR_PRCT`. -/
structure ClcPctRow where
  code_clc : ℤ
  description_clc : String
  longueur_prct : ℤ
deriving DecidableEq

/-- The abstract database state: for each WKT text the geometric facts the
spatial tables hold about the corresponding line.  The same `lengthOf` is
the value of `ST_LENGTH(L.GEOM)` wherever a query computes it. -/
structure DB where
  lengthOf : String → ℚ
  elevationRows : String → List ElevRow
  hydroFeatures : String → List HydroFeature
  clcFeatures : String → List ClcFeature

/-- Connection events observable from a `with psycopg2.connect(...)` block. -/
inductive Event where
  | openConn
  | closeConn
deriving DecidableEq, BEq

/-- Python exceptions the handler can raise before a response is built:
IndexError from `coord[0]`/`coord[1]` on a too-short entry, and
ZeroDivisionError from `total_length / len(elevation_points)`. -/
inductive PyError where
  | indexError
  | zeroDivisionError
deriving DecidableEq

/-- One entry of the `values` array of the response:
`{"distance": ..., "elevation": ..., "geometry": ...}`. -/
structure GeoEntry where
  distance : ℤ
  elevation : ℤ
  geometry : List ℚ
deriving DecidableEq

/-- The JSON body returned by `process_linestring`. -/
structure Response where
  values : List GeoEntry
  hydro_info : List HydroRow
  clc_info : List ClcRow
  clc_pct_info : List ClcPctRow
deriving DecidableEq

/-- Python `f-string` fragment for one coordinate entry: renders
`coord[0]` and `coord[1]` space-joined; IndexError when the entry has
fewer than two elements. -/
def coordToWktPair (render : α → String) (coord : List α) : Except PyError String :=
  match coord.get? 0, coord.get? 1 with
  | some x, some y => .ok (render x ++ " " ++ render y)
  | _, _ => .error .indexError

/-- The fragments of all coordinate entries, left to right, stopping at
the first IndexError — the order in which Python consumes the generator
inside `join`. -/
def wktParts (render : α → String) : List (List α) → Except PyError (List String)
  | [] => .ok []
  | c :: cs => do
      let s ← coordToWktPair render c
      let ss ← wktParts render cs
      return s :: ss

/-- Line 186 of `main.py`: the WKT text built from the posted `coords`,
comma-joining the space-joined pairs. -/
def buildWKT (render : α → String) (coords : List (List α)) : Except PyError String := do
  let parts ← wktParts render coords
  return "LINESTRING(" ++ String.intercalate ", " parts ++ ")"

/-- Modelled from the spec (section 4.1): the WKT string described as
space-joining each pair's coordinates and comma-joining the pairs.  Used
only to compare the spec's wording with `buildWKT`. -/
def wktOfSpec (render : α → String) (coords : List (List α)) : String :=
  "LINESTRING(" ++
    String.intercalate ", "
      (coords.map (fun c => String.intercalate " " ((c.take 2).map render))) ++ ")"

/-- `calculate_linestring_length`: one connection, one `ST_LENGTH` query. -/
def calculate_linestring_length (db : DB) (wkt : String) : ℚ × List Event :=
  (db.lengthOf wkt, [Event.openConn, Event.closeConn])

/-- `fetch_elevation_data`: one connection, the raster-intersection rows of
the interpolated points of the line. -/
def fetch_elevation_data (db : DB) (wkt : String) : List ElevRow × List Event :=
  (db.elevationRows wkt, [Event.openConn, Event.closeConn])

/-- Sort key of `ORDER BY DIST_M` of the hydrography query. -/
def HydroRow.distLe (a b : HydroRow) : Prop := a.dist_m ≤ b.dist_m

instance : DecidableRel HydroRow.distLe :=
  fun a b => inferInstanceAs (Decidable (a.dist_m ≤ b.dist_m))

instance : IsTotal HydroRow HydroRow.distLe := ⟨fun a b => Int.le_total a.dist_m b.dist_m⟩

instance : IsTrans HydroRow HydroRow.distLe := ⟨fun _ _ _ => Int.le_trans⟩

/-- `fetch_hydrographic_info`: one connection; joins `GEO_COURS_EAU` on
`ST_CROSSES`, keeps `CLASSE IN (1, 2, 3)`, dumps each intersection point,
computes `(ST_LINELOCATEPOINT(L, pt) * ST_LENGTH(L))::INT` and orders by
that distance. -/
def fetch_hydrographic_info (db : DB) (wkt : String) : List HydroRow × List Event :=
  let L := db.lengthOf wkt
  let rows := ((db.hydroFeatures wkt).filter
      (fun c => c.crosses && (c.classe == 1 || c.classe == 2 || c.classe == 3))).flatMap
      (fun c => c.crossPositions.map
        (fun p => HydroRow.mk c.nomentiteh c.classe (pgInt (p * L))))
  (List.insertionSort HydroRow.distLe rows, [Event.openConn, Event.closeConn])

/-- Sort key of `ORDER BY POSITION` of the land-cover segment query. -/
def SegRow.posLe (a b : SegRow) : Prop := a.position ≤ b.position

instance : DecidableRel SegRow.posLe :=
  fun a b => inferInstanceAs (Decidable (a.position ≤ b.position))

instance : IsTotal SegRow SegRow.posLe := ⟨fun a b => le_total a.position b.position⟩

instance : IsTrans SegRow SegRow.posLe := ⟨fun _ _ _ => le_trans⟩

/-- The window `SUM(ST_LENGTH(SEG.GEOM)) OVER (ORDER BY POSITION ROWS
BETWEEN UNBOUNDED PRECEDING AND CURRENT ROW)::int` applied to the rows in
position order. -/
def cumRows (acc : ℚ) : List SegRow → List ClcRow
  | [] => []
  | s :: ss =>
      ClcRow.mk s.code_clc s.description_clc (pgInt (acc + s.geomLength)) ::
        cumRows (acc + s.geomLength) ss

/-- `fetch_clc_data`: one connection; dumps the intersection of the line
with each intersecting `GEO_CLC_2018` feature, keeps the
`ST_LineString`-like pieces, and returns the cumulative lengths in
centroid-position order. -/
def fetch_clc_data (db : DB) (wkt : String) : List ClcRow × List Event :=
  let seg := ((db.clcFeatures wkt).filter (fun c => c.intersects)).flatMap
    (fun c => c.segs.map (fun s =>
      SegRow.mk c.code_clc c.description_clc s.isLineString s.len s.position))
  let filtered := seg.filter (fun s => s.geomIsLineString)
  (cumRows 0 (List.insertionSort SegRow.posLe filtered),
   [Event.openConn, Event.closeConn])

/-- Sort key of `ORDER BY LONGUEUR_PRCT DESC` of the percentage query. -/
def ClcPctRow.pctGe (a b : ClcPctRow) : Prop := b.longueur_prct ≤ a.longueur_prct

instance : DecidableRel ClcPctRow.pctGe :=
  fun a b => inferInstanceAs (Decidable (b.longueur_prct ≤ a.longueur_prct))

instance : IsTotal ClcPctRow ClcPctRow.pctGe :=
  ⟨fun a b => (Int.le_total a.longueur_prct b.longueur_prct).symm⟩

instance : IsTrans ClcPctRow ClcPctRow.pctGe :=
  ⟨fun _ _ _ hab hbc => le_trans hbc hab⟩

/-- The summand `ST_LENGTH(ST_INTERSECTION(L.GEOM, C.GEOM)) / ST_LENGTH(L.GEOM) * 100`
of the percentage query. -/
def pctOf (L : ℚ) (c : ClcFeature) : ℚ := c.intersectionLength / L * 100

/-- `calculate_clc_percentage`: one connection; groups the intersecting
land-cover features by `(CODE_CLC, DESCRIPTION_CLC)`, sums each group's
percentage of the total length, casts to `INT` and orders descending. -/
def calculate_clc_percentage (db : DB) (wkt : String) : List ClcPctRow × List Event :=
  let L := db.lengthOf wkt
  let feats := (db.clcFeatures wkt).filter (fun c => c.intersects)
  let keys := (feats.map (fun c => (c.code_clc, c.description_clc))).dedup
  let rows := keys.map (fun k =>
    ClcPctRow.mk k.1 k.2
      (pgInt (((feats.filter (fun c =>
        c.code_clc == k.1 && c.description_clc == k.2)).map (pctOf L)).sum)))
  (List.insertionSort ClcPctRow.pctGe rows, [Event.openConn, Event.closeConn])

/-- Lines 183–207 of `main.py`: the `POST /GeoProfile` handler.  Returns
either the assembled response or the Python exception, together with the
trace of connection events in program order. -/
def process_linestring (db : DB) (render : α → String) (coords : List (List α)) :
    Except PyError Response × List Event :=
  match buildWKT render coords with
  | .error e => (.error e, [])
  | .ok wkt =>
      let lenq := calculate_linestring_length db wkt
      let total_length := lenq.1
      let elevq := fetch_elevation_data db wkt
      let elevation_points := elevq.1.map (fun p => (p.value.getD 0, p.geom))
      if elevation_points.length = 0 then
        (.error .zeroDivisionError, lenq.2 ++ elevq.2)
      else
        let segment_length := total_length / (elevation_points.length : ℚ)
        let geospatial_data := elevation_points.enum.map (fun ip =>
          GeoEntry.mk (pyInt (segment_length * ip.1)) ip.2.1 ip.2.2.coordinates)
        let hydroq := fetch_hydrographic_info db wkt
        let clcq := fetch_clc_data db wkt
        let pctq := calculate_clc_percentage db wkt
        (.ok (Response.mk geospatial_data hydroq.1 clcq.1 pctq.1),
         lenq.2 ++ elevq.2 ++ hydroq.2 ++ clcq.2 ++ pctq.2)

/-! ### Concrete witness inputs

A small database state and request used to instantiate the theorems below
at concrete inputs.  `db0` answers every WKT text with ten metres of
length, two elevation samples (the second with a NULL raster value), one
crossing river of class 2 and one intersecting land-cover polygon. -/

def rend0 : ℤ → String := fun n => toString n

def coords0 : List (List ℤ) := [[0, 0], [1, 1]]

def wkt0 : String := "LINESTRING(0 0, 1 1)"

def db0 : DB where
  lengthOf := fun _ => 10
  elevationRows := fun _ => [ElevRow.mk (some 7) (GeoJsonPoint.mk [0, 0]),
                             ElevRow.mk none (GeoJsonPoint.mk [1, 1])]
  hydroFeatures := fun _ => [HydroFeature.mk "brook" 2 true [1/2]]
  clcFeatures := fun _ => [ClcFeature.mk 21 "arable" true 5 [ClcSeg.mk true 5 (1/2)]]

/-- `db0` with an elevation raster that intersects nowhere: the elevation
query returns zero rows. -/
def db1 : DB where
  lengthOf := fun _ => 10
  elevationRows := fun _ => []
  hydroFeatures := fun _ => [HydroFeature.mk "brook" 2 true [1/2]]
  clcFeatures := fun _ => [ClcFeature.mk 21 "arable" true 5 [ClcSeg.mk true 5 (1/2)]]

/-- The response `process_linestring` assembles for `db0` and `coords0`. -/
def res0 : Response :=
  Response.mk
    [GeoEntry.mk 0 7 [0, 0], GeoEntry.mk 5 0 [1, 1]]
    [HydroRow.mk "brook" 2 5]
    [ClcRow.mk 21 "arable" 5]
    [ClcPctRow.mk 21 "arable" 50]

/-- The list the success branch of the handler binds to `geospatial_data`,
written as a function of the database row set (`segment_length` has been
rewritten through `List.length_map`). -/
def valuesOf (db : DB) (wkt : String) : List GeoEntry :=
  ((db.elevationRows wkt).map (fun p => (p.value.getD 0, p.geom))).enum.map
    (fun ip => GeoEntry.mk
      (pyInt (db.lengthOf wkt / ((db.elevationRows wkt).length : ℚ) * ip.1))
      ip.2.1 ip.2.2.coordinates)

/-! ### Helper lemmas -/

theorem pyInt_of_nonneg {q : ℚ} (h : 0 ≤ q) : pyInt q = ⌊q⌋ := if_pos h

theorem fetch_hydrographic_info_events (db : DB) (wkt : String) :
    (fetch_hydrographic_info db wkt).2 = [Event.openConn, Event.closeConn] := rfl

theorem fetch_clc_data_events (db : DB) (wkt : String) :
    (fetch_clc_data db wkt).2 = [Event.openConn, Event.closeConn] := rfl

theorem calculate_clc_percentage_events (db : DB) (wkt : String) :
    (calculate_clc_percentage db wkt).2 = [Event.openConn, Event.closeConn] := rfl

/-- The success path of the handler: when the WKT builds and the elevation
row set is non-empty, the response is assembled from the five query
results and the trace is five open/close pairs in program order. -/
theorem process_linestring_ok {α : Type _} (db : DB) (render : α → String)
    (coords : List (List α)) (wkt : String)
    (hw : buildWKT render coords = .ok wkt)
    (hne : db.elevationRows wkt ≠ []) :
    process_linestring db render coords =
      (.ok (Response.mk (valuesOf db wkt)
        (fetch_hydrographic_info db wkt).1
        (fetch_clc_data db wkt).1
        (calculate_clc_percentage db wkt).1),
       [Event.openConn, Event.closeConn, Event.openConn, Event.closeConn,
        Event.openConn, Event.closeConn, Event.openConn, Event.closeConn,
        Event.openConn, Event.closeConn]) := by
  unfold process_linestring
  rw [hw]
  simp [calculate_linestring_length, fetch_elevation_data, List.length_map,
        List.length_eq_zero, hne, fetch_hydrographic_info_events,
        fetch_clc_data_events, calculate_clc_percentage_events, valuesOf]

/-- The division-by-zero path: when the elevation row set is empty the
handler stops with ZeroDivisionError after the first two queries. -/
theorem process_linestring_empty {α : Type _} (db : DB) (render : α → String)
    (coords : List (List α)) (wkt : String)
    (hw : buildWKT render coords = .ok wkt)
    (he : db.elevationRows wkt = []) :
    process_linestring db render coords =
      (.error .zeroDivisionError,
       [Event.openConn, Event.closeConn, Event.openConn, Event.closeConn]) := by
  unfold process_linestring
  rw [hw]
  simp [calculate_linestring_length, fetch_elevation_data, he]

/-- Inversion of a successful run: it went through the success path. -/
theorem process_linestring_ok_inv {α : Type _} {db : DB} {render : α → String}
    {coords : List (List α)} {res : Response}
    (h : (process_linestring db render coords).1 = .ok res) :
    ∃ wkt, buildWKT render coords = .ok wkt ∧ db.elevationRows wkt ≠ [] ∧
      res = Response.mk (valuesOf db wkt)
        (fetch_hydrographic_info db wkt).1
        (fetch_clc_data db wkt).1
        (calculate_clc_percentage db wkt).1 := by
  cases hb : buildWKT render coords with
  | error e =>
      unfold process_linestring at h
      rw [hb] at h
      simp at h
  | ok wkt =>
      by_cases he : db.elevationRows wkt = []
      · rw [process_linestring_empty db render coords wkt hb he] at h
        simp at h
      · rw [process_linestring_ok db render coords wkt hb he] at h
        simp at h
        exact ⟨wkt, rfl, he, h.symm⟩

theorem valuesOf_length (db : DB) (wkt : String) :
    (valuesOf db wkt).length = (db.elevationRows wkt).length := by
  simp [valuesOf]

theorem valuesOf_get (db : DB) (wkt : String) (i : ℕ)
    (hi : i < (valuesOf db wkt).length) (hi2 : i < (db.elevationRows wkt).length) :
    (valuesOf db wkt).get ⟨i, hi⟩ =
      GeoEntry.mk (pyInt (db.lengthOf wkt / ((db.elevationRows wkt).length : ℚ) * i))
        (((db.elevationRows wkt).get ⟨i, hi2⟩).value.getD 0)
        (((db.elevationRows wkt).get ⟨i, hi2⟩).geom.coordinates) := by
  simp [valuesOf, List.get_eq_getElem, List.getElem_map, List.getElem_enum]

theorem wkt0_ok : buildWKT rend0 coords0 = .ok wkt0 := rfl

theorem db0_rows_ne : db0.elevationRows wkt0 ≠ [] := by decide

/-- Concrete evaluation of the handler on `db0` and `coords0`. -/
theorem process_db0 : process_linestring db0 rend0 coords0 =
    (.ok res0,
     [Event.openConn, Event.closeConn, Event.openConn, Event.closeConn,
      Event.openConn, Event.closeConn, Event.openConn, Event.closeConn,
      Event.openConn, Event.closeConn]) := by
  rw [process_linestring_ok db0 rend0 coords0 wkt0 wkt0_ok db0_rows_ne]
  have hv : valuesOf db0 wkt0 = [GeoEntry.mk 0 7 [0, 0], GeoEntry.mk 5 0 [1, 1]] := by
    norm_num [valuesOf, db0, pyInt, List.enum, List.enumFrom]
  have hh : (fetch_hydrographic_info db0 wkt0).1 = [HydroRow.mk "brook" 2 5] := by
    norm_num [fetch_hydrographic_info, db0, pgInt, List.insertionSort, List.orderedInsert]
  have hc : (fetch_clc_data db0 wkt0).1 = [ClcRow.mk 21 "arable" 5] := by
    norm_num [fetch_clc_data, db0, pgInt, List.insertionSort, List.orderedInsert, cumRows]
  have hp : (calculate_clc_percentage db0 wkt0).1 = [ClcPctRow.mk 21 "arable" 50] := by
    norm_num [calculate_clc_percentage, db0, pgInt, pctOf, List.insertionSort,
      List.orderedInsert, List.dedup]
  rw [hv, hh, hc, hp]
  rfl

theorem process_db0_fst : (process_linestring db0 rend0 coords0).1 = .ok res0 := by
  rw [process_db0]

theorem process_values_length {α : Type _} {db : DB} {render : α → String}
    {coords : List (List α)} {wkt : String} {res : Response}
    (hw : buildWKT render coords = .ok wkt)
    (hres : (process_linestring db render coords).1 = .ok res) :
    res.values.length = (db.elevationRows wkt).length := by
  obtain ⟨w, hw2, hne, hres2⟩ := process_linestring_ok_inv hres
  rw [hw] at hw2
  injection hw2 with h
  subst h
  subst hres2
  exact valuesOf_length db wkt

/-- The i-th entry of the `values` array of a successful response, as a
function of the i-th elevation row. -/
theorem process_values_get {α : Type _} {db : DB} {render : α → String}
    {coords : List (List α)} {wkt : String} {res : Response}
    (hw : buildWKT render coords = .ok wkt)
    (hres : (process_linestring db render coords).1 = .ok res)
    (i : ℕ) (hi : i < res.values.length) (hi2 : i < (db.elevationRows wkt).length) :
    res.values.get ⟨i, hi⟩ =
      GeoEntry.mk (pyInt (db.lengthOf wkt / ((db.elevationRows wkt).length : ℚ) * i))
        (((db.elevationRows wkt).get ⟨i, hi2⟩).value.getD 0)
        (((db.elevationRows wkt).get ⟨i, hi2⟩).geom.coordinates) := by
  obtain ⟨w, hw2, hne, hres2⟩ := process_linestring_ok_inv hres
  rw [hw] at hw2
  injection hw2 with h
  subst h
  subst hres2
  exact valuesOf_get db wkt i hi hi2

theorem two_le_shape {α : Type _} {c : List α} (h : 2 ≤ c.length) :
    ∃ x y rest, c = x :: y :: rest := by
  match c, h with
  | x :: y :: rest, _ => exact ⟨x, y, rest, rfl⟩

/-- When every entry has at least two elements, the fragment list succeeds
and space-joins the first two rendered elements of each entry. -/
theorem wktParts_of_two_le {α : Type _} (render : α → String) :
    ∀ (coords : List (List α)), (∀ c ∈ coords, 2 ≤ c.length) →
      wktParts render coords =
        .ok (coords.map (fun c => String.intercalate " " ((c.take 2).map render)))
  | [], _ => rfl
  | c :: cs, h => by
      obtain ⟨x, y, rest, rfl⟩ := two_le_shape (h c (List.mem_cons_self c cs))
      have ih := wktParts_of_two_le render cs (fun d hd => h d (List.mem_cons_of_mem _ hd))
      simp [wktParts, coordToWktPair, ih]
      try rfl

theorem buildWKT_of_two_le {α : Type _} (render : α → String)
    (coords : List (List α)) (h : ∀ c ∈ coords, 2 ≤ c.length) :
    buildWKT render coords = .ok (wktOfSpec render coords) := by
  simp [buildWKT, wktParts_of_two_le render coords h, wktOfSpec]

/-- The WKT fragments depend only on the first two elements of each entry. -/
theorem wktParts_congr {α : Type _} (render : α → String)
    {c1 c2 : List (List α)}
    (h : List.Forall₂ (fun c d => 2 ≤ c.length ∧ c.get? 0 = d.get? 0 ∧
      c.get? 1 = d.get? 1) c1 c2) :
    wktParts render c1 = wktParts render c2 := by
  induction h with
  | nil => rfl
  | cons hcd _ ih =>
      have h0 := hcd.2.1
      have h1 := hcd.2.2
      rw [List.get?_eq_getElem?, List.get?_eq_getElem?] at h0 h1
      simp [wktParts, coordToWktPair, h0, h1, ih]

theorem forall₂_left_two_le {α : Type _} {c1 c2 : List (List α)}
    (h : List.Forall₂ (fun c d => 2 ≤ c.length ∧ c.get? 0 = d.get? 0 ∧
      c.get? 1 = d.get? 1) c1 c2) :
    ∀ c ∈ c1, 2 ≤ c.length := by
  induction h with
  | nil => intro c hc; cases hc
  | cons hcd _ ih =>
      intro c hc
      rcases List.mem_cons.mp hc with rfl | hc
      · exact hcd.1
      · exact ih c hc

/-! ### The claims -/

/-- Claim C1: for every request whose elevation query returns a non-empty
row set of N samples and whose computed total line length is non-negative,
the `distance` field of the i-th entry of the returned `values` array
equals `floor(total_length / N * i)` for every sample index i. -/
theorem C1_distance_is_floor {α : Type _} (db : DB) (render : α → String)
    (coords : List (List α)) (wkt : String) (res : Response)
    (hw : buildWKT render coords = .ok wkt)
    (hres : (process_linestring db render coords).1 = .ok res)
    (hL : 0 ≤ db.lengthOf wkt) (i : ℕ) (hi : i < res.values.length) :
    (res.values.get ⟨i, hi⟩).distance =
      ⌊db.lengthOf wkt / ((db.elevationRows wkt).length : ℚ) * (i : ℚ)⌋ := by
  have hi2 : i < (db.elevationRows wkt).length := by
    rw [← process_values_length hw hres]
    exact hi
  rw [process_values_get hw hres i hi hi2]
  exact pyInt_of_nonneg
    (mul_nonneg (div_nonneg hL (Nat.cast_nonneg _)) (Nat.cast_nonneg _))

theorem C1_distance_is_floor_witness :
    (res0.values.get ⟨1, by decide⟩).distance =
      ⌊db0.lengthOf wkt0 / ((db0.elevationRows wkt0).length : ℚ) * ((1 : ℕ) : ℚ)⌋ :=
  C1_distance_is_floor db0 rend0 coords0 wkt0 res0 wkt0_ok process_db0_fst
    (by norm_num [db0]) 1 (by decide)

/-- Claim C2: for every request whose elevation query returns zero rows,
the handler raises ZeroDivisionError (at `total_length /
len(elevation_points)`) instead of producing any distance value. -/
theorem C2_empty_elevation_raises {α : Type _} (db : DB) (render : α → String)
    (coords : List (List α)) (wkt : String)
    (hw : buildWKT render coords = .ok wkt)
    (he : db.elevationRows wkt = []) :
    (process_linestring db render coords).1 = .error PyError.zeroDivisionError := by
  rw [process_linestring_empty db render coords wkt hw he]

theorem C2_empty_elevation_raises_witness :
    (process_linestring db1 rend0 coords0).1 = .error PyError.zeroDivisionError :=
  C2_empty_elevation_raises db1 rend0 coords0 wkt0 wkt0_ok rfl

/-- Claim C3: for `coords = [[0,0],[1,1]]` the handler constructs exactly
the WKT string `LINESTRING(0 0, 1 1)`; in general the WKT line is built by
space-joining each pair's coordinates and comma-joining the pairs. -/
theorem C3_wkt_construction :
    buildWKT rend0 coords0 = .ok "LINESTRING(0 0, 1 1)" ∧
    ∀ {α : Type} (render : α → String) (coords : List (List α)),
      (∀ c ∈ coords, 2 ≤ c.length) →
      buildWKT render coords = .ok (wktOfSpec render coords) := by
  constructor
  · rfl
  · intro α render coords h
    exact buildWKT_of_two_le render coords h

theorem C3_wkt_construction_witness :
    buildWKT rend0 coords0 = .ok (wktOfSpec rend0 coords0) :=
  C3_wkt_construction.2 rend0 coords0 (by decide)

/-- Claim C4: for every elevation sample row, a NULL elevation value is
substituted with 0 in the output and a non-NULL value is passed through
unchanged, and no sample is omitted from the `values` array. -/
theorem C4_null_elevation_zero {α : Type _} (db : DB) (render : α → String)
    (coords : List (List α)) (wkt : String) (res : Response)
    (hw : buildWKT render coords = .ok wkt)
    (hres : (process_linestring db render coords).1 = .ok res) :
    res.values.length = (db.elevationRows wkt).length ∧
    ∀ i (hi : i < res.values.length) (hi2 : i < (db.elevationRows wkt).length),
      (((db.elevationRows wkt).get ⟨i, hi2⟩).value = none →
        (res.values.get ⟨i, hi⟩).elevation = 0) ∧
      ∀ v, ((db.elevationRows wkt).get ⟨i, hi2⟩).value = some v →
        (res.values.get ⟨i, hi⟩).elevation = v := by
  refine ⟨process_values_length hw hres, fun i hi hi2 => ?_⟩
  rw [process_values_get hw hres i hi hi2]
  constructor
  · intro h
    rw [List.get_eq_getElem] at h
    simp [h]
  · intro v h
    rw [List.get_eq_getElem] at h
    simp [h]

theorem C4_null_elevation_zero_witness :
    (res0.values.get ⟨1, by decide⟩).elevation = 0 :=
  ((C4_null_elevation_zero db0 rend0 coords0 wkt0 res0 wkt0_ok process_db0_fst).2
    1 (by decide) (by decide)).1 (by decide)

/-- Claim C5, corrected: the handler calls five query functions, not four.
On `db0` and `coords0` the request succeeds and the trace holds five
connection openings, so the claimed total of exactly four is false. -/
theorem C5_four_connections_cex :
    (process_linestring db0 rend0 coords0).1.isOk = true ∧
    ¬ ((process_linestring db0 rend0 coords0).2.count Event.openConn = 4) := by
  rw [process_db0]
  exact ⟨rfl, by decide⟩

/-- Claim C5, amended: each query function call opens exactly one fresh
connection and closes it at function exit, and a request that completes
successfully opens exactly five connections in total, sequentially, with
none pooled or reused. -/
theorem C5_five_connections {α : Type _} (db : DB) (render : α → String)
    (coords : List (List α)) (wkt : String) (res : Response)
    (hres : (process_linestring db render coords).1 = .ok res) :
    (calculate_linestring_length db wkt).2 = [Event.openConn, Event.closeConn] ∧
    (fetch_elevation_data db wkt).2 = [Event.openConn, Event.closeConn] ∧
    (fetch_hydrographic_info db wkt).2 = [Event.openConn, Event.closeConn] ∧
    (fetch_clc_data db wkt).2 = [Event.openConn, Event.closeConn] ∧
    (calculate_clc_percentage db wkt).2 = [Event.openConn, Event.closeConn] ∧
    (process_linestring db render coords).2 =
      [Event.openConn, Event.closeConn, Event.openConn, Event.closeConn,
       Event.openConn, Event.closeConn, Event.openConn, Event.closeConn,
       Event.openConn, Event.closeConn] ∧
    (process_linestring db render coords).2.count Event.openConn = 5 ∧
    (process_linestring db render coords).2.count Event.closeConn = 5 := by
  obtain ⟨w, hw2, hne, hres2⟩ := process_linestring_ok_inv hres
  have htr : (process_linestring db render coords).2 =
      [Event.openConn, Event.closeConn, Event.openConn, Event.closeConn,
       Event.openConn, Event.closeConn, Event.openConn, Event.closeConn,
       Event.openConn, Event.closeConn] := by
    rw [process_linestring_ok db render coords w hw2 hne]
  refine ⟨rfl, rfl, rfl, rfl, rfl, htr, ?_, ?_⟩ <;> rw [htr] <;> rfl

theorem C5_five_connections_witness :
    (process_linestring db0 rend0 coords0).2 =
      [Event.openConn, Event.closeConn, Event.openConn, Event.closeConn,
       Event.openConn, Event.closeConn, Event.openConn, Event.closeConn,
       Event.openConn, Event.closeConn] :=
  (C5_five_connections db0 rend0 coords0 wkt0 res0 process_db0_fst).2.2.2.2.2.1

/-- Claim C6: the `geometry` field of every output entry equals the
coordinate pair of the GeoJSON point the database returned for that
sample, unmodified. -/
theorem C6_geometry_passthrough {α : Type _} (db : DB) (render : α → String)
    (coords : List (List α)) (wkt : String) (res : Response)
    (hw : buildWKT render coords = .ok wkt)
    (hres : (process_linestring db render coords).1 = .ok res) :
    ∀ i (hi : i < res.values.length) (hi2 : i < (db.elevationRows wkt).length),
      (res.values.get ⟨i, hi⟩).geometry =
        ((db.elevationRows wkt).get ⟨i, hi2⟩).geom.coordinates := by
  intro i hi hi2
  rw [process_values_get hw hres i hi hi2]

theorem C6_geometry_passthrough_witness :
    (res0.values.get ⟨0, by decide⟩).geometry =
      ((db0.elevationRows wkt0).get ⟨0, by decide⟩).geom.coordinates :=
  C6_geometry_passthrough db0 rend0 coords0 wkt0 res0 wkt0_ok process_db0_fst
    0 (by decide) (by decide)

/-- Claim C7: the hydrographic crossings of the `hydro_info` field appear
in ascending order of their distance-along-line value, and only crossings
of features of classification tiers 1, 2 and 3 are included. -/
theorem C7_hydro_sorted_filtered {α : Type _} (db : DB) (render : α → String)
    (coords : List (List α)) (res : Response)
    (hres : (process_linestring db render coords).1 = .ok res) :
    List.Sorted HydroRow.distLe res.hydro_info ∧
    ∀ r ∈ res.hydro_info, r.classe = 1 ∨ r.classe = 2 ∨ r.classe = 3 := by
  obtain ⟨wkt, hw, hne, hres2⟩ := process_linestring_ok_inv hres
  subst hres2
  constructor
  · exact List.sorted_insertionSort _ _
  · intro r hr
    have hr2 : r ∈ ((db.hydroFeatures wkt).filter
        (fun c => c.crosses && (c.classe == 1 || c.classe == 2 || c.classe == 3))).flatMap
        (fun c => c.crossPositions.map
          (fun p => HydroRow.mk c.nomentiteh c.classe (pgInt (p * db.lengthOf wkt)))) :=
      (List.perm_insertionSort HydroRow.distLe _).subset hr
    rcases List.mem_flatMap.mp hr2 with ⟨c, hc, hrc⟩
    rcases List.mem_map.mp hrc with ⟨p, hp, rfl⟩
    have hb := (List.mem_filter.mp hc).2
    simp only [Bool.and_eq_true, Bool.or_eq_true, beq_iff_eq] at hb
    exact or_assoc.mp hb.2

theorem C7_hydro_sorted_filtered_witness :
    List.Sorted HydroRow.distLe res0.hydro_info :=
  (C7_hydro_sorted_filtered db0 rend0 coords0 res0 process_db0_fst).1

/-- Claim C8: the land-cover percentage entries of `clc_pct_info` appear
in descending order of their percentage, one entry per cover code (under
the table invariant that the description is determined by the code), each
percentage being the cover type's intersected length as a percentage of
total line length (cast to INT by the query). -/
theorem C8_clc_pct_sorted_grouped {α : Type _} (db : DB) (render : α → String)
    (coords : List (List α)) (wkt : String) (res : Response)
    (hw : buildWKT render coords = .ok wkt)
    (hres : (process_linestring db render coords).1 = .ok res)
    (hfd : ∀ c ∈ db.clcFeatures wkt, ∀ d ∈ db.clcFeatures wkt,
      c.code_clc = d.code_clc → c.description_clc = d.description_clc) :
    List.Sorted ClcPctRow.pctGe res.clc_pct_info ∧
    res.clc_pct_info.Pairwise (fun a b => a.code_clc ≠ b.code_clc) ∧
    ∀ r ∈ res.clc_pct_info, r.longueur_prct =
      pgInt ((((db.clcFeatures wkt).filter
          (fun c => c.intersects && c.code_clc == r.code_clc)).map
          (fun c => c.intersectionLength)).sum / db.lengthOf wkt * 100) := by
  obtain ⟨w, hw2, hne, hres2⟩ := process_linestring_ok_inv hres
  rw [hw] at hw2
  injection hw2 with hweq
  subst hweq
  subst hres2
  set L := db.lengthOf wkt with hL
  set feats := (db.clcFeatures wkt).filter (fun c => c.intersects) with hfeats
  set keys := (feats.map (fun c => (c.code_clc, c.description_clc))).dedup with hkeys
  have hkey_mem : ∀ k ∈ keys, ∃ fk ∈ db.clcFeatures wkt,
      fk.intersects = true ∧ fk.code_clc = k.1 ∧ fk.description_clc = k.2 := by
    intro k hk
    rcases List.mem_map.mp (List.mem_dedup.mp hk) with ⟨fk, hfk, hfkk⟩
    have := List.mem_filter.mp hfk
    exact ⟨fk, this.1, this.2, by rw [← hfkk], by rw [← hfkk]⟩
  refine ⟨List.sorted_insertionSort _ _, ?_, ?_⟩
  · have hperm := List.perm_insertionSort ClcPctRow.pctGe
      (keys.map (fun k => ClcPctRow.mk k.1 k.2
        (pgInt (((feats.filter (fun c =>
          c.code_clc == k.1 && c.description_clc == k.2)).map (pctOf L)).sum))))
    refine ((hperm.pairwise_iff (fun h => h.symm)).mpr ?_)
    rw [List.pairwise_map]
    refine (List.nodup_dedup _).imp_of_mem ?_
    intro k l hk hl hkl
    intro hcode
    have hcode2 : k.1 = l.1 := hcode
    apply hkl
    rcases hkey_mem k hk with ⟨fk, hfk, _, hfkc, hfkd⟩
    rcases hkey_mem l hl with ⟨fl, hfl, _, hflc, hfld⟩
    have hdesc : fk.description_clc = fl.description_clc :=
      hfd fk hfk fl hfl (by rw [hfkc, hflc, hcode2])
    have : k.2 = l.2 := by rw [← hfkd, ← hfld, hdesc]
    exact Prod.ext hcode2 this
  · intro r hr
    have hr2 := (List.perm_insertionSort ClcPctRow.pctGe _).subset hr
    rcases List.mem_map.mp hr2 with ⟨k, hk, rfl⟩
    show pgInt _ = pgInt _
    congr 1
    have hfilter : feats.filter (fun c => c.code_clc == k.1 && c.description_clc == k.2) =
        (db.clcFeatures wkt).filter (fun c => c.intersects && c.code_clc == k.1) := by
      rw [hfeats, List.filter_filter]
      apply List.filter_congr
      intro c hcmem
      rcases hkey_mem k hk with ⟨fk, hfk, _, hfkc, hfkd⟩
      cases hci : c.intersects with
      | false => simp [hci]
      | true =>
          by_cases hcode : c.code_clc = k.1
          · have hdesc : c.description_clc = k.2 := by
              rw [← hfkd]
              exact hfd c hcmem fk hfk (by rw [hcode, hfkc])
            simp [hci, hcode, hdesc]
          · simp [hci, hcode]
    rw [hfilter]
    have hmap : ((db.clcFeatures wkt).filter
        (fun c => c.intersects && c.code_clc == k.1)).map (pctOf L) =
        ((db.clcFeatures wkt).filter
        (fun c => c.intersects && c.code_clc == k.1)).map
          (fun c => c.intersectionLength * (100 / L)) := by
      apply List.map_congr_left
      intro c _
      unfold pctOf
      ring
    rw [hmap, List.sum_map_mul_right]
    ring

theorem C8_clc_pct_sorted_grouped_witness :
    List.Sorted ClcPctRow.pctGe res0.clc_pct_info :=
  (C8_clc_pct_sorted_grouped db0 rend0 coords0 wkt0 res0 wkt0_ok process_db0_fst
    (by
      intro c hc d hd _
      simp [db0] at hc hd
      rw [hc, hd])).1

/-- Claim C9: for every request with a non-empty elevation row set and a
non-negative total length, the `distance` values of the `values` array are
monotonically non-decreasing in sample index and the first entry's
distance is exactly 0. -/
theorem C9_distance_monotone {α : Type _} (db : DB) (render : α → String)
    (coords : List (List α)) (wkt : String) (res : Response)
    (hw : buildWKT render coords = .ok wkt)
    (hres : (process_linestring db render coords).1 = .ok res)
    (hL : 0 ≤ db.lengthOf wkt) :
    (∀ i j (hi : i < res.values.length) (hj : j < res.values.length), i ≤ j →
      (res.values.get ⟨i, hi⟩).distance ≤ (res.values.get ⟨j, hj⟩).distance) ∧
    (∀ h0 : 0 < res.values.length, (res.values.get ⟨0, h0⟩).distance = 0) := by
  have hlen := process_values_length hw hres
  have hq : 0 ≤ db.lengthOf wkt / ((db.elevationRows wkt).length : ℚ) :=
    div_nonneg hL (Nat.cast_nonneg _)
  constructor
  · intro i j hi hj hij
    have hi2 : i < (db.elevationRows wkt).length := hlen ▸ hi
    have hj2 : j < (db.elevationRows wkt).length := hlen ▸ hj
    rw [process_values_get hw hres i hi hi2, process_values_get hw hres j hj hj2]
    rw [pyInt_of_nonneg (mul_nonneg hq (Nat.cast_nonneg _)),
        pyInt_of_nonneg (mul_nonneg hq (Nat.cast_nonneg _))]
    exact Int.floor_le_floor (mul_le_mul_of_nonneg_left (Nat.cast_le.mpr hij) hq)
  · intro h0
    have h02 : 0 < (db.elevationRows wkt).length := hlen ▸ h0
    rw [process_values_get hw hres 0 h0 h02]
    simp [pyInt]

theorem C9_distance_monotone_witness :
    (res0.values.get ⟨0, by decide⟩).distance ≤ (res0.values.get ⟨1, by decide⟩).distance :=
  (C9_distance_monotone db0 rend0 coords0 wkt0 res0 wkt0_ok process_db0_fst
    (by norm_num [db0])).1 0 1 (by decide) (by decide) (by norm_num)

/-- Claim C10: the constructed WKT string, and hence the whole run of the
handler against a fixed database, depends only on the first two elements
of each `coords` entry: two coords lists agreeing on the first two
elements of every entry (each entry having at least two) yield the same
WKT string and the same handler result, so any further elements of an
entry are ignored. -/
theorem C10_extra_elements_ignored {α : Type _} (db : DB) (render : α → String)
    (c1 c2 : List (List α))
    (h : List.Forall₂ (fun c d => 2 ≤ c.length ∧ c.get? 0 = d.get? 0 ∧
      c.get? 1 = d.get? 1) c1 c2) :
    (buildWKT render c1).isOk = true ∧
    buildWKT render c1 = buildWKT render c2 ∧
    process_linestring db render c1 = process_linestring db render c2 := by
  have hw : buildWKT render c1 = buildWKT render c2 := by
    simp [buildWKT, wktParts_congr render h]
  refine ⟨?_, hw, ?_⟩
  · rw [buildWKT_of_two_le render c1 (forall₂_left_two_le h)]
    rfl
  · simp only [process_linestring, hw]

theorem C10_extra_elements_ignored_witness :
    (buildWKT rend0 [[0, 0, 5], [1, 1]]).isOk = true ∧
    buildWKT rend0 [[0, 0, 5], [1, 1]] = buildWKT rend0 [[0, 0], [1, 1, 9]] ∧
    process_linestring db0 rend0 [[0, 0, 5], [1, 1]] =
      process_linestring db0 rend0 [[0, 0], [1, 1, 9]] :=
  C10_extra_elements_ignored db0 rend0 [[0, 0, 5], [1, 1]] [[0, 0], [1, 1, 9]]
    (List.Forall₂.cons (by refine ⟨by decide, rfl, rfl⟩)
      (List.Forall₂.cons (by refine ⟨by decide, rfl, rfl⟩) List.Forall₂.nil))

end TopoServer
